import Mathlib

set_option maxRecDepth 4000

/- Shallow embedding of the HTTP client wrapper (src/services/api.ts) and of
the fallback data service (src/services/fallbackData.ts) of the
dominica-news frontend, together with theorems settling the specification
claims about rate limiting, token refresh, retry/backoff classification and
fallback substitution. -/

/- ========== String helpers ==========
JavaScript String.prototype.includes, modelled over the character list of a
Lean String. charsHasPre sub s decides whether sub is an initial segment of
s; charsHasSub sub s decides whether sub occurs contiguously anywhere in s. -/

def charsHasPre : List Char → List Char → Bool
  | [], _ => true
  | _ :: _, [] => false
  | a :: as, b :: bs => a == b && charsHasPre as bs

def charsHasSub (sub : List Char) : List Char → Bool
  | [] => sub.isEmpty
  | b :: bs => charsHasPre sub (b :: bs) || charsHasSub sub bs

def jsIncludes (s sub : String) : Bool :=
  charsHasSub sub.data s.data

/- ========== Rate limiting (api.ts lines 9-43) ========== -/

/-- One entry of rateLimitConfig.requestQueue: a timestamp paired with the
endpoint string (api.ts line 13). -/
structure RequestRecord where
  timestamp : Nat
  endpoint : String
deriving DecidableEq

/-- rateLimitConfig.windowMs (api.ts line 12). -/
def windowMs : Nat := 60000

/-- rateLimitConfig.maxRequests (api.ts line 11). -/
def maxRequests : Nat := 200

/-- cleanupOldRequests (api.ts lines 17-22): keep only the records whose age
is strictly below the window. -/
def cleanupOldRequests (now : Nat) (q : List RequestRecord) : List RequestRecord :=
  q.filter (fun r => decide (now - r.timestamp < windowMs))

/-- The fixed allow-list of critical endpoints (api.ts line 29). -/
def criticalEndpoints : List String := ["/auth/login", "/auth/refresh", "/health"]

/-- The criticalEndpoints.some check of api.ts line 30, using the JavaScript
includes semantics. -/
def isCritical (endpoint : String) : Bool :=
  criticalEndpoints.any (fun c => jsIncludes endpoint c)

/-- shouldRateLimit (api.ts lines 25-35): purge old records, admit critical
endpoints unconditionally, otherwise deny once the purged log has reached
the ceiling. -/
def shouldRateLimit (now : Nat) (q : List RequestRecord) (endpoint : String) : Bool :=
  let cleaned := cleanupOldRequests now q
  if isCritical endpoint then false
  else decide (maxRequests ≤ cleaned.length)

/- ========== Request interceptor (api.ts lines 71-135) ========== -/

/-- The decoded JWT payload as used by the interceptor: only the exp field is
consulted (api.ts lines 89-93). exp is in seconds; a present exp equal to 0
is falsy in JavaScript and is treated like an absent one. -/
structure TokenPayload where
  exp : Option Int
deriving DecidableEq

/-- Outcome of the proactive refresh fetch of api.ts lines 96-108: the fetch
resolved ok with a new token, resolved non-ok, or threw. -/
inductive FetchOutcome where
  | ok (token : String)
  | notOk
  | threw
deriving DecidableEq

/-- Result of the request interceptor: rejected by the client-side rate
limiter (api.ts lines 76-80), or the call proceeds with the given
Authorization header value and the given stored token afterwards. -/
inductive ReqResult where
  | rejectedRateLimit
  | proceed (authHeader : Option String) (storedAfter : Option String)
deriving DecidableEq

/-- Token attachment logic of api.ts lines 85-123, as a pure function from
the stored token, the decode outcome (the try/catch around atob and
JSON.parse), the refresh-in-flight flag and the proactive fetch outcome to
the pair (Authorization header value, stored token after the interceptor).
Note that when the proactive refresh fetch resolves non-ok the code sets no
Authorization header at all (there is no else branch at line 104). -/
def attachAuth (nowSec : Int) (isRefreshing : Bool) (stored : Option String)
    (decode : String → Option TokenPayload) (proactiveFetch : FetchOutcome)
    (endpoint : String) : Option String × Option String :=
  match stored with
  | none => (none, none)
  | some token =>
    match decode token with
    | none => (some ("Bearer " ++ token), some token)
    | some payload =>
      match payload.exp with
      | some e =>
        if e != 0 && decide (e - nowSec < 300) then
          if !isRefreshing && !(jsIncludes endpoint "/auth/refresh") then
            match proactiveFetch with
            | .ok newToken => (some ("Bearer " ++ newToken), some newToken)
            | .notOk => (none, some token)
            | .threw => (some ("Bearer " ++ token), some token)
          else (some ("Bearer " ++ token), some token)
        else (some ("Bearer " ++ token), some token)
      | none => (some ("Bearer " ++ token), some token)

/-- The request interceptor of api.ts lines 71-135: the admission check runs
first and a denial rejects the call; on admission the purged log gets a new
record appended (addToRequestQueue, lines 38-43) and the token attachment
logic runs. The second component is the request log after the interceptor. -/
def requestInterceptor (now : Nat) (nowSec : Int) (q : List RequestRecord)
    (isRefreshing : Bool) (stored : Option String)
    (decode : String → Option TokenPayload) (proactiveFetch : FetchOutcome)
    (endpoint : String) : ReqResult × List RequestRecord :=
  if shouldRateLimit now q endpoint then
    (.rejectedRateLimit, cleanupOldRequests now q)
  else
    let a := attachAuth nowSec isRefreshing stored decode proactiveFetch endpoint
    (.proceed a.1 a.2, cleanupOldRequests now q ++ [⟨now, endpoint⟩])

/- ========== Response interceptor (api.ts lines 145-361) ========== -/

/-- The module-level mutable state of api.ts: the refresh-in-flight flag
(line 55), the length of the failedQueue of waiters (line 56), the global
retry counter (line 6) and the rate-limit request log (line 13). -/
structure ApiState where
  isRefreshing : Bool
  retryCount : Nat
  requestQueue : List RequestRecord
  failedQueueLen : Nat
deriving DecidableEq

/-- The error object reaching the response interceptor: the client-side rate
limit marker (line 162), the response status (none models a network error
with no response), the parsed Retry-After header in seconds (line 268), the
endpoint and the _retry marker of the original request (line 159). -/
structure ErrInfo where
  isRateLimit : Bool
  status : Option Nat
  retryAfterHeader : Option Nat
  endpoint : String
  retryFlag : Bool
deriving DecidableEq

/-- The fallback-eligible path list of the 404 branch (api.ts line 256). -/
def apiEndpoints : List String :=
  ["/articles", "/categories", "/authors", "/images", "/breaking-news", "/static-pages"]

/-- The apiEndpoints.some check of api.ts line 257. -/
def fallbackEligiblePath (endpoint : String) : Bool :=
  apiEndpoints.any (fun a => jsIncludes endpoint a)

/-- Decision taken by the response interceptor for one error. -/
inductive RespAction where
  | rejectRateLimit
  | queueBehindRefresh
  | refreshAndRetry
  | rejectForbidden
  | rejectNotFound (fallbackEligible : Bool)
  | retryAfter (delayMs : Nat)
  | retryNetwork (delayMs : Nat)
  | retryServer (delayMs : Nat)
  | surface
deriving DecidableEq

/-- The 429 delay of api.ts line 269: Retry-After seconds times 1000 when
present, otherwise 5000. -/
def retryAfterDelay (h : Option Nat) : Nat :=
  match h with
  | some n => n * 1000
  | none => 5000

/-- The network retry delay of api.ts line 287: base times 2 to the power
(attempt - 1) plus the jitter drawn from Math.random times 1000. -/
def networkRetryDelay (baseDelay attempt jitter : Nat) : Nat :=
  baseDelay * 2 ^ (attempt - 1) + jitter

/-- The 5xx retry delay of api.ts line 311: base times 2 to the power
(attempt - 1), with no jitter term. -/
def serverRetryDelay (baseDelay attempt : Nat) : Nat :=
  baseDelay * 2 ^ (attempt - 1)

/-- The spec wording of the backoff formula (spec section 4.3): base times 2
to the power (attempt - 1) plus jitter, claimed for both the 5xx and the
network branch. Kept separate from the code-derived delays so the two can be
compared. -/
def specBackoffDelay (base attempt jitter : Nat) : Nat :=
  base * 2 ^ (attempt - 1) + jitter

/-- The array slice with negative start of api.ts line 274: keep the last n
elements. -/
def jsSliceLast (n : Nat) (l : List RequestRecord) : List RequestRecord :=
  l.drop (l.length - n)

/-- Truth of a 5xx status as checked at api.ts line 306. -/
def is5xx (status : Option Nat) : Bool :=
  match status with
  | some s => decide (500 ≤ s)
  | none => false

/-- Outcome of one run of the response interceptor error handler: the action
taken, the module state afterwards, and the _retry marker of the original
request afterwards (set at api.ts lines 199, 282 and 307). -/
structure RespOutcome where
  action : RespAction
  state : ApiState
  reqRetryFlag : Bool
deriving DecidableEq

/-- The error branch cascade of the response interceptor (api.ts lines
158-359), as a pure function of the module state, the error, and the jitter
draw. The branches appear in source order: client rate limit (162), 401 with
unset marker (186) splitting on the refresh-in-flight flag (187/199), 403
(247), 404 (253), 429 (267), network error retry (281), 5xx retry (306), and
the fall-through that resets the retry counter and rejects (329-359). -/
def respond (maxR baseDelay : Nat) (st : ApiState) (e : ErrInfo) (jitter : Nat) : RespOutcome :=
  if e.isRateLimit then ⟨.rejectRateLimit, st, e.retryFlag⟩
  else if e.status = some 401 ∧ e.retryFlag = false then
    if st.isRefreshing then
      ⟨.queueBehindRefresh, { st with failedQueueLen := st.failedQueueLen + 1 }, e.retryFlag⟩
    else
      ⟨.refreshAndRetry, { st with isRefreshing := true }, true⟩
  else if e.status = some 403 then ⟨.rejectForbidden, st, e.retryFlag⟩
  else if e.status = some 404 then
    ⟨.rejectNotFound (fallbackEligiblePath e.endpoint), st, e.retryFlag⟩
  else if e.status = some 429 then
    ⟨.retryAfter (retryAfterDelay e.retryAfterHeader),
      { st with requestQueue := jsSliceLast 50 st.requestQueue }, e.retryFlag⟩
  else if e.status = none ∧ e.retryFlag = false ∧ st.retryCount < maxR then
    ⟨.retryNetwork (networkRetryDelay baseDelay (st.retryCount + 1) jitter),
      { st with retryCount := st.retryCount + 1 }, true⟩
  else if is5xx e.status = true ∧ e.retryFlag = false ∧ st.retryCount < maxR then
    ⟨.retryServer (serverRetryDelay baseDelay (st.retryCount + 1)),
      { st with retryCount := st.retryCount + 1 }, true⟩
  else ⟨.surface, { st with retryCount := 0 }, e.retryFlag⟩

/-- Terminal classification of an action, folding in how the refresh settles
for the leader of the 401 branch (api.ts lines 202-243): on refresh success
the original request is re-issued, on refresh failure the stored tokens are
cleared, a session-expired redirect is scheduled and the call is rejected
(lines 226-240); the plain fall-through rejection of line 359 carries none
of those side effects. -/
inductive Terminal where
  | sessionExpired
  | genericReject
  | forbidden
  | notFound (fallbackEligible : Bool)
  | rateLimited
  | reissued
  | queued
deriving DecidableEq

def interpret (a : RespAction) (refreshResult : Option String) : Terminal :=
  match a with
  | .refreshAndRetry =>
    match refreshResult with
    | some _ => .reissued
    | none => .sessionExpired
  | .surface => .genericReject
  | .rejectForbidden => .forbidden
  | .rejectNotFound b => .notFound b
  | .rejectRateLimit => .rateLimited
  | .queueBehindRefresh => .queued
  | .retryAfter _ => .reissued
  | .retryNetwork _ => .reissued
  | .retryServer _ => .reissued

/-- A waiter parked in failedQueue is re-issued exactly when the refresh
resolves with a token (api.ts lines 189-196); its _retry marker is never
set on that path. -/
def queuedWaiterRedispatches (refreshResult : Option String) : Bool :=
  refreshResult.isSome

/-- Whether an action re-issues the call through one of the three
marker-guarded failure classes: the 401-refresh branch (leader or queued
waiter), the network-error branch, or the 5xx branch. -/
def threeClassReissue : RespAction → Bool
  | .refreshAndRetry => true
  | .queueBehindRefresh => true
  | .retryNetwork _ => true
  | .retryServer _ => true
  | _ => false

/-- Re-dispatch of the original request (the apiClient(originalRequest)
calls at api.ts lines 193, 221, 277, 302 and 325): invoking the axios
instance runs the full interceptor chain again, so the re-issued attempt
goes through the request interceptor, including its admission check. -/
def redispatchRetry (now : Nat) (nowSec : Int) (q : List RequestRecord)
    (isRefreshing : Bool) (stored : Option String)
    (decode : String → Option TokenPayload) (proactiveFetch : FetchOutcome)
    (e : ErrInfo) : ReqResult × List RequestRecord :=
  requestInterceptor now nowSec q isRefreshing stored decode proactiveFetch e.endpoint

/- ========== Interleaving model of the proactive refresh path ==========
The proactive refresh of the request interceptor (api.ts lines 93-112) runs
on the single cooperative thread: the segment from the expiry check up to
issuing the fetch is atomic, then the task suspends until the fetch
settles. The segment checks the isRefreshing flag (line 94) but never sets
it, before or after the fetch. -/

/-- A request running the proactive section: its endpoint, the decoded exp
of its stored token, and the current time in seconds. -/
structure ProactiveTask where
  endpoint : String
  exp : Int
  nowSec : Int
deriving DecidableEq

/-- Program counter of a proactive task: before the expiry check, suspended
on its refresh fetch, or finished. -/
inductive TaskPC where
  | start
  | awaitingRefresh
  | done
deriving DecidableEq

/-- The globally shared state: the isRefreshing flag and the number of
refresh HTTP calls currently outstanding. -/
structure CState where
  isRefreshing : Bool
  refreshesInFlight : Nat
deriving DecidableEq

/-- The guard of api.ts lines 93-94: exp truthy, expiring within 300
seconds, no refresh flagged in flight, and not itself a refresh call. -/
def proactiveFires (g : CState) (t : ProactiveTask) : Bool :=
  t.exp != 0 && decide (t.exp - t.nowSec < 300) && !g.isRefreshing
    && !(jsIncludes t.endpoint "/auth/refresh")

/-- One cooperative step of a proactive task. Starting the fetch increments
the number of refreshes in flight without touching isRefreshing, faithfully
to api.ts lines 94-112 where the flag is read but never written. -/
def stepProactive (g : CState) (t : ProactiveTask) (pc : TaskPC) : CState × TaskPC :=
  match pc with
  | .start =>
    if proactiveFires g t then
      ({ g with refreshesInFlight := g.refreshesInFlight + 1 }, .awaitingRefresh)
    else (g, .done)
  | .awaitingRefresh => ({ g with refreshesInFlight := g.refreshesInFlight - 1 }, .done)
  | .done => (g, .done)

/-- Run two proactive tasks under a schedule: true picks the first task,
false the second. Returns the shared state and both program counters. -/
def runTwo (t1 t2 : ProactiveTask) (sched : List Bool) : CState × TaskPC × TaskPC :=
  sched.foldl
    (fun acc pick =>
      let g := acc.1
      let pc1 := acc.2.1
      let pc2 := acc.2.2
      if pick then
        let s := stepProactive g t1 pc1
        (s.1, s.2, pc2)
      else
        let s := stepProactive g t2 pc2
        (s.1, pc1, s.2))
    (⟨false, 0⟩, .start, .start)

/- ========== Fallback data service (fallbackData.ts) ========== -/

/-- The fields of a mock article relevant to the claims (fallbackData.ts
lines 71-86). -/
structure Article where
  id : String
  title : String
  slug : String
  status : String
  isPinned : Bool
deriving DecidableEq

/-- mockArticles (fallbackData.ts lines 71-86): a single published article
with id 1. -/
def mockArticles : List Article :=
  [⟨"1", "Sample Article Title", "sample-article-title", "published", false⟩]

structure Pagination where
  currentPage : Nat
  totalPages : Nat
  totalArticles : Nat
  hasNextPage : Bool
  hasPrevPage : Bool
  limit : Nat
deriving DecidableEq

structure ArticlesResult where
  success : Bool
  message : String
  articles : List Article
  pagination : Pagination
deriving DecidableEq

/-- fallbackService.getArticles (fallbackData.ts lines 207-223). -/
def fallbackGetArticles : ArticlesResult :=
  { success := true
    message := "Articles retrieved (fallback data)"
    articles := mockArticles
    pagination :=
      { currentPage := 1, totalPages := 1, totalArticles := mockArticles.length
        hasNextPage := false, hasPrevPage := false, limit := 10 } }

/-- The fields of a mock static page relevant to the claims (fallbackData.ts
lines 145-168). -/
structure StaticPage where
  id : String
  title : String
  slug : String
  isPublished : Bool
deriving DecidableEq

/-- mockStaticPages (fallbackData.ts lines 145-168): two pages, both
published. -/
def mockStaticPages : List StaticPage :=
  [⟨"1", "About Us", "about-us", true⟩, ⟨"2", "Contact Us", "contact-us", true⟩]

structure StaticPagesResult where
  success : Bool
  message : String
  pages : List StaticPage
  count : Nat
deriving DecidableEq

/-- fallbackService.getStaticPages (fallbackData.ts lines 272-279). The
argument is truthy only when it is some true; otherwise the unfiltered mock
list is returned. -/
def fallbackGetStaticPages (published : Option Bool) : StaticPagesResult :=
  let filteredPages :=
    match published with
    | some true => mockStaticPages.filter (fun p => p.isPublished)
    | _ => mockStaticPages
  { success := true
    message := "Static pages retrieved (fallback data)"
    pages := filteredPages
    count := filteredPages.length }

/-- shouldUseFallback (fallbackData.ts lines 292-304): any 404 qualifies,
and a missing response qualifies in development mode; the path plays no
role. -/
def shouldUseFallback (status : Option Nat) (isDevelopment : Bool) : Bool :=
  if status = some 404 then true
  else if status.isNone && isDevelopment then true
  else false

/-- withFallback (fallbackData.ts lines 307-323): on a failed service call,
substitute the fallback result when enabled and shouldUseFallback holds,
otherwise re-throw. -/
def withFallback {T : Type} (serviceResult : Except ErrInfo T) (fallbackResult : T)
    (enableFallback : Bool) (isDevelopment : Bool) : Except ErrInfo T :=
  match serviceResult with
  | .ok v => .ok v
  | .error e =>
    if enableFallback && shouldUseFallback e.status isDevelopment then .ok fallbackResult
    else .error e

/- ========== Concrete inputs used by witnesses and counterexamples ========== -/

/-- A fresh module state: no refresh in flight, zero retry counter. -/
def st0 : ApiState := ⟨false, 0, [], 0⟩

/-- Module state with a refresh already in flight. -/
def stRefreshing : ApiState := ⟨true, 0, [], 0⟩

/-- A 401 error on a request whose _retry marker is already set. -/
def e401Retried : ErrInfo := ⟨false, some 401, none, "/articles", true⟩

/-- A first 401 error on a request whose _retry marker is unset. -/
def e401Fresh : ErrInfo := ⟨false, some 401, none, "/articles", false⟩

/-- A 500 error on a request whose _retry marker is unset. -/
def e500Fresh : ErrInfo := ⟨false, some 500, none, "/articles", false⟩

/-- A 429 error on a request that has already been retried. -/
def e429Retried : ErrInfo := ⟨false, some 429, none, "/articles", true⟩

/-- A 404 error on the admin pages path, which is wrapped in withFallback by
staticPagesService.getAdminPages but is not on the fallback-eligible list of
api.ts line 256. -/
def errAdminPages404 : ErrInfo := ⟨false, some 404, none, "/admin/pages", false⟩

/-- A request log holding maxRequests records, all inside the window at time
1000. -/
def fullQueue : List RequestRecord := List.replicate maxRequests ⟨1000, "/x"⟩

/-- Two concurrent requests whose stored tokens expire 200 seconds from now,
below the 300 second proactive threshold. -/
def tokenTaskA : ProactiveTask := ⟨"/articles", 1000200, 1000000⟩

def tokenTaskB : ProactiveTask := ⟨"/categories", 1000200, 1000000⟩

/- ========== Helper lemmas ========== -/

/-- The 429 delay equals the mapped Retry-After header with default 5000. -/
theorem retryAfterDelay_eq (h : Option Nat) :
    retryAfterDelay h = (h.map (fun n => n * 1000)).getD 5000 := by
  cases h <;> rfl

/- ========== Claim theorems ========== -/

/-- C4: a 429 response is always retried, regardless of the retry marker and
of the retry counter, after the server-supplied Retry-After delay (in
milliseconds) when present and a 5000 ms default otherwise. -/
theorem C4_429_always_retried (maxR baseDelay jitter : Nat) (st : ApiState) (e : ErrInfo)
    (hrl : e.isRateLimit = false) (hs : e.status = some 429) :
    (respond maxR baseDelay st e jitter).action =
      RespAction.retryAfter ((e.retryAfterHeader.map (fun n => n * 1000)).getD 5000) := by
  unfold respond
  rw [← retryAfterDelay_eq]
  simp [hrl, hs]

/-- C4 witness: a 429 on a request already retried, with the retry counter
far above the ceiling, is still retried with the default 5000 ms delay. -/
theorem C4_witness :
    (respond 3 1000 ⟨false, 99, [], 0⟩ ⟨false, some 429, none, "/articles", true⟩ 7).action =
      RespAction.retryAfter 5000 := by
  have h := C4_429_always_retried 3 1000 7 ⟨false, 99, [], 0⟩
    ⟨false, some 429, none, "/articles", true⟩ rfl rfl
  simpa using h

/-- C5: the request interceptor denies a call exactly when shouldRateLimit
holds; for a non-allow-listed endpoint that is exactly when the purged log
has reached the ceiling, and the call is admitted again whenever enough
entries have aged out that the purged log is below the ceiling; allow-listed
critical endpoints are never denied regardless of log size. -/
theorem C5_admission (now : Nat) (nowSec : Int) (q : List RequestRecord) (endpoint : String)
    (isR : Bool) (stored : Option String) (decode : String → Option TokenPayload)
    (pf : FetchOutcome) :
    ((requestInterceptor now nowSec q isR stored decode pf endpoint).1 =
        ReqResult.rejectedRateLimit ↔ shouldRateLimit now q endpoint = true)
    ∧ (isCritical endpoint = false →
        (shouldRateLimit now q endpoint = true ↔
          maxRequests ≤ (cleanupOldRequests now q).length))
    ∧ (isCritical endpoint = true → shouldRateLimit now q endpoint = false)
    ∧ (isCritical endpoint = false → (cleanupOldRequests now q).length < maxRequests →
        shouldRateLimit now q endpoint = false) := by
  refine ⟨?_, ?_, ?_, ?_⟩
  · unfold requestInterceptor
    by_cases h : shouldRateLimit now q endpoint <;> simp [h]
  · intro hc
    unfold shouldRateLimit
    simp [hc]
  · intro hc
    unfold shouldRateLimit
    simp [hc]
  · intro hc hlt
    unfold shouldRateLimit
    simp [hc]
    omega

/-- C5 witness: at time 1000 a full fresh log denies a non-critical call and
still admits a critical one, and after the window has elapsed (time 61001)
the same non-critical call is admitted again. -/
theorem C5_witness :
    shouldRateLimit 1000 fullQueue "/articles" = true
    ∧ shouldRateLimit 1000 fullQueue "/health" = false
    ∧ shouldRateLimit 61001 fullQueue "/articles" = false := by
  refine ⟨?_, ?_, ?_⟩
  · exact ((C5_admission 1000 0 fullQueue "/articles" false none (fun _ => none)
      FetchOutcome.threw).2.1 (by decide)).mpr (by decide)
  · exact (C5_admission 1000 0 fullQueue "/health" false none (fun _ => none)
      FetchOutcome.threw).2.2.1 (by decide)
  · exact (C5_admission 61001 0 fullQueue "/articles" false none (fun _ => none)
      FetchOutcome.threw).2.2.2 (by decide) (by decide)

/-- C8: when the stored credential cannot be decoded, the call proceeds with
the credential attached as-is in the Authorization header; the decode
failure neither blocks nor fails the call (given the admission check passed,
which is independent of the token). -/
theorem C8_malformed_token_fail_open (now : Nat) (nowSec : Int) (q : List RequestRecord)
    (isR : Bool) (token : String) (decode : String → Option TokenPayload)
    (pf : FetchOutcome) (endpoint : String)
    (hpass : shouldRateLimit now q endpoint = false)
    (hdec : decode token = none) :
    requestInterceptor now nowSec q isR (some token) decode pf endpoint =
      (ReqResult.proceed (some ("Bearer " ++ token)) (some token),
        cleanupOldRequests now q ++ [⟨now, endpoint⟩]) := by
  unfold requestInterceptor attachAuth
  simp [hpass, hdec]

/-- C8 witness: a garbage token whose decode fails is attached as-is and the
call proceeds. -/
theorem C8_witness :
    requestInterceptor 0 0 [] false (some "not-a-jwt") (fun _ => none)
        FetchOutcome.threw "/articles" =
      (ReqResult.proceed (some ("Bearer " ++ "not-a-jwt")) (some "not-a-jwt"),
        [⟨0, "/articles"⟩]) := by
  have h := C8_malformed_token_fail_open 0 0 [] false "not-a-jwt" (fun _ => none)
    FetchOutcome.threw "/articles" (by decide) rfl
  simpa [cleanupOldRequests] using h

/-- C10: fallbackService.getStaticPages filters to published pages exactly
when its argument is some true; for some false or an absent argument it
returns the whole mock list; in every case the count equals the length of
the returned list and success is true. -/
theorem C10_static_pages_filter (published : Option Bool) :
    (fallbackGetStaticPages (some true)).pages = mockStaticPages.filter (fun p => p.isPublished)
    ∧ (fallbackGetStaticPages (some false)).pages = mockStaticPages
    ∧ (fallbackGetStaticPages none).pages = mockStaticPages
    ∧ (fallbackGetStaticPages published).count = (fallbackGetStaticPages published).pages.length
    ∧ (fallbackGetStaticPages published).success = true := by
  have hc : ∀ p : Option Bool,
      (fallbackGetStaticPages p).count = (fallbackGetStaticPages p).pages.length
      ∧ (fallbackGetStaticPages p).success = true := by
    intro p
    cases p with
    | none => exact ⟨rfl, rfl⟩
    | some b => cases b <;> exact ⟨rfl, rfl⟩
  exact ⟨rfl, rfl, rfl, (hc published).1, (hc published).2⟩

/-- C2 counterexample: a second 401 on a request whose _retry marker is set
falls through every handling branch and is rejected as a plain generic
failure, not with the session-expired handling (token clearing and
redirect), which the code performs only when the refresh call itself
fails. -/
theorem C2_counterexample :
    (respond 3 1000 st0 e401Retried 0).action = RespAction.surface
    ∧ interpret (respond 3 1000 st0 e401Retried 0).action none = Terminal.genericReject
    ∧ Terminal.genericReject ≠ Terminal.sessionExpired := by decide

/-- C2 amended: a first 401 on a request with unset marker and no refresh in
flight triggers exactly one refresh-and-retry, setting the marker and the
in-flight flag, and a failing refresh there yields the session-expired
handling; a 401 on a request whose marker is set is rejected terminally as a
generic failure, with no session-expired handling and no further refresh
attempt. -/
theorem C2_amended (maxR baseDelay jitter : Nat) (st : ApiState) (e : ErrInfo)
    (refreshResult : Option String)
    (hrl : e.isRateLimit = false) (hs : e.status = some 401) :
    (e.retryFlag = false → st.isRefreshing = false →
        (respond maxR baseDelay st e jitter).action = RespAction.refreshAndRetry
        ∧ (respond maxR baseDelay st e jitter).reqRetryFlag = true
        ∧ (respond maxR baseDelay st e jitter).state.isRefreshing = true
        ∧ interpret RespAction.refreshAndRetry none = Terminal.sessionExpired)
    ∧ (e.retryFlag = true →
        (respond maxR baseDelay st e jitter).action = RespAction.surface
        ∧ interpret (respond maxR baseDelay st e jitter).action refreshResult =
            Terminal.genericReject
        ∧ Terminal.genericReject ≠ Terminal.sessionExpired) := by
  constructor
  · intro hf hr
    unfold respond
    simp [hrl, hs, hf, hr, interpret]
  · intro hf
    have ha : (respond maxR baseDelay st e jitter).action = RespAction.surface := by
      unfold respond
      simp [hrl, hs, hf, is5xx]
    exact ⟨ha, by rw [ha]; rfl, by decide⟩

/-- C2 witness: the amended theorem applied to a fresh 401 (refresh fired)
and to a 401 with the marker set (generic terminal rejection). -/
theorem C2_amended_witness :
    (respond 3 1000 st0 e401Fresh 0).action = RespAction.refreshAndRetry
    ∧ (respond 3 1000 st0 e401Retried 0).reqRetryFlag = true
    ∧ (respond 3 1000 st0 e401Retried 0).action = RespAction.surface := by
  refine ⟨((C2_amended 3 1000 0 st0 e401Fresh none rfl rfl).1 rfl rfl).1, by decide, ?_⟩
  exact ((C2_amended 3 1000 0 st0 e401Retried none rfl rfl).2 rfl).1

/-- C3 counterexample: for a first 5xx failure with base delay 1000 and a
jitter draw of 500, the code computes the delay 1000 (no jitter term in the
5xx branch, api.ts line 311), while the claimed formula base times
2 to the power (attempt - 1) plus jitter gives 1500. -/
theorem C3_counterexample :
    (respond 3 1000 st0 e500Fresh 500).action = RespAction.retryServer 1000
    ∧ specBackoffDelay 1000 1 500 = 1500
    ∧ RespAction.retryServer 1000 ≠ RespAction.retryServer 1500 := by decide

/-- C3 amended: a network error or 5xx is retried only while the marker is
unset and the shared counter is below maxRetries, incrementing the counter
and setting the marker; the network delay is base times 2 to the power
(attempt - 1) plus jitter while the 5xx delay has no jitter term; once the
counter has reached the ceiling the failure is surfaced; and successive
delays are nondecreasing whenever the base is at least the 1000 ms jitter
bound. -/
theorem C3_amended (maxR baseDelay jitter : Nat) (st : ApiState) (e : ErrInfo) :
    (e.isRateLimit = false → e.status = none → e.retryFlag = false → st.retryCount < maxR →
        (respond maxR baseDelay st e jitter).action =
          RespAction.retryNetwork (networkRetryDelay baseDelay (st.retryCount + 1) jitter)
        ∧ (respond maxR baseDelay st e jitter).state.retryCount = st.retryCount + 1
        ∧ (respond maxR baseDelay st e jitter).reqRetryFlag = true)
    ∧ (∀ s, e.isRateLimit = false → e.status = some s → 500 ≤ s → e.retryFlag = false →
        st.retryCount < maxR →
        (respond maxR baseDelay st e jitter).action =
          RespAction.retryServer (serverRetryDelay baseDelay (st.retryCount + 1))
        ∧ (respond maxR baseDelay st e jitter).state.retryCount = st.retryCount + 1
        ∧ (respond maxR baseDelay st e jitter).reqRetryFlag = true)
    ∧ (e.isRateLimit = false → e.status = none → maxR ≤ st.retryCount →
        (respond maxR baseDelay st e jitter).action = RespAction.surface)
    ∧ (∀ s, e.isRateLimit = false → e.status = some s → 500 ≤ s → maxR ≤ st.retryCount →
        (respond maxR baseDelay st e jitter).action = RespAction.surface)
    ∧ (∀ a, serverRetryDelay baseDelay a = networkRetryDelay baseDelay a 0)
    ∧ (∀ a j1 j2, 1 ≤ a → 1000 ≤ baseDelay → j1 < 1000 →
        networkRetryDelay baseDelay a j1 ≤ networkRetryDelay baseDelay (a + 1) j2) := by
  refine ⟨?_, ?_, ?_, ?_, ?_, ?_⟩
  · intro hrl hst hrf hcount
    unfold respond
    simp [hrl, hst, hrf, hcount]
  · intro s hrl hst h5 hrf hcount
    have h401 : s ≠ 401 := by omega
    have h403 : s ≠ 403 := by omega
    have h404 : s ≠ 404 := by omega
    have h429 : s ≠ 429 := by omega
    unfold respond
    simp [hrl, hst, hrf, hcount, h401, h403, h404, h429, is5xx, h5]
  · intro hrl hst hcount
    have hnot : ¬ st.retryCount < maxR := by omega
    unfold respond
    simp [hrl, hst, hnot]
  · intro s hrl hst h5 hcount
    have h401 : s ≠ 401 := by omega
    have h403 : s ≠ 403 := by omega
    have h404 : s ≠ 404 := by omega
    have h429 : s ≠ 429 := by omega
    have hnot : ¬ st.retryCount < maxR := by omega
    unfold respond
    simp [hrl, hst, hnot, h401, h403, h404, h429]
  · intro a
    unfold serverRetryDelay networkRetryDelay
    simp
  · intro a j1 j2 ha hb hj
    unfold networkRetryDelay
    have hsub : a - 1 + 1 = a := Nat.sub_add_cancel ha
    have hone : (1 : Nat) ≤ 2 ^ (a - 1) := Nat.one_le_two_pow
    have hpow : (2 : Nat) ^ a = 2 ^ (a - 1) * 2 := by
      conv_lhs => rw [← hsub]
      rw [pow_succ]
    have hbx : baseDelay ≤ baseDelay * 2 ^ (a - 1) := by
      calc baseDelay = baseDelay * 1 := by ring
        _ ≤ baseDelay * 2 ^ (a - 1) := Nat.mul_le_mul (le_refl baseDelay) hone
    have hdouble : baseDelay * (2 ^ (a - 1) * 2) =
        baseDelay * 2 ^ (a - 1) + baseDelay * 2 ^ (a - 1) := by ring
    have hstep : baseDelay * 2 ^ (a - 1) + 1000 ≤ baseDelay * 2 ^ a := by
      rw [hpow, hdouble]
      have : (1000 : Nat) ≤ baseDelay * 2 ^ (a - 1) := le_trans hb hbx
      omega
    have hgoal : baseDelay * 2 ^ (a + 1 - 1) = baseDelay * 2 ^ a := by
      simp
    rw [hgoal]
    omega

/-- C3 witness: with base 1000 and counter 0, a first network error is
retried after 1250 ms for jitter 250, a first 500 is retried after exactly
1000 ms, and a worst-case first delay never exceeds the jitter-free second
delay. -/
theorem C3_amended_witness :
    (respond 3 1000 st0 ⟨false, none, none, "/articles", false⟩ 250).action =
      RespAction.retryNetwork 1250
    ∧ (respond 3 1000 st0 e500Fresh 0).action = RespAction.retryServer 1000
    ∧ networkRetryDelay 1000 1 999 ≤ networkRetryDelay 1000 2 0 := by
  refine ⟨?_, ?_, ?_⟩
  · have h := (C3_amended 3 1000 250 st0 ⟨false, none, none, "/articles", false⟩).1
      rfl rfl rfl (by decide)
    simpa [networkRetryDelay, st0] using h.1
  · have h := (C3_amended 3 1000 0 st0 e500Fresh).2.1 500 rfl rfl (by omega) rfl (by decide)
    simpa [serverRetryDelay, st0] using h.1
  · exact (C3_amended 3 1000 0 st0 e500Fresh).2.2.2.2.2 1 999 0 (by omega) (by omega) (by omega)

/-- C9 counterexample: a 401 arriving while a refresh is in flight queues
the call and leaves its _retry marker unset; after the refresh resolves the
waiter is re-issued, and a subsequent 500 on that same call (marker still
unset, counter below the ceiling) is retried again, so one call is re-issued
twice across the guarded failure classes. -/
theorem C9_counterexample :
    (respond 3 1000 stRefreshing e401Fresh 0).action = RespAction.queueBehindRefresh
    ∧ (respond 3 1000 stRefreshing e401Fresh 0).reqRetryFlag = false
    ∧ queuedWaiterRedispatches (some "newToken") = true
    ∧ (respond 3 1000 st0 e500Fresh 0).action = RespAction.retryServer 1000
    ∧ (respond 3 1000 st0 e500Fresh 0).reqRetryFlag = true := by decide

/-- C9 amended: the shared _retry marker is consulted by the 401-refresh,
network and 5xx branches alike, so a call whose marker is set is never
re-issued through any of them and a 401 on such a call is rejected directly;
the 401 leader path, the network retry and the 5xx retry each set the
marker, while the queued-waiter path leaves it unchanged, so only the
marker-setting paths bound the call to one retry. -/
theorem C9_amended (maxR baseDelay jitter : Nat) (st : ApiState) (e : ErrInfo) :
    (e.retryFlag = true → threeClassReissue (respond maxR baseDelay st e jitter).action = false)
    ∧ (e.retryFlag = true → e.isRateLimit = false → e.status = some 401 →
        (respond maxR baseDelay st e jitter).action = RespAction.surface)
    ∧ ((respond maxR baseDelay st e jitter).action = RespAction.refreshAndRetry →
        (respond maxR baseDelay st e jitter).reqRetryFlag = true)
    ∧ (∀ d, (respond maxR baseDelay st e jitter).action = RespAction.retryNetwork d →
        (respond maxR baseDelay st e jitter).reqRetryFlag = true)
    ∧ (∀ d, (respond maxR baseDelay st e jitter).action = RespAction.retryServer d →
        (respond maxR baseDelay st e jitter).reqRetryFlag = true)
    ∧ ((respond maxR baseDelay st e jitter).action = RespAction.queueBehindRefresh →
        (respond maxR baseDelay st e jitter).reqRetryFlag = e.retryFlag) := by
  refine ⟨?_, ?_, ?_, ?_, ?_, ?_⟩
  · intro hf
    unfold respond
    split_ifs <;> simp_all [threeClassReissue]
  · intro hf hrl hs
    unfold respond
    simp [hf, hrl, hs, is5xx]
  · unfold respond
    split_ifs <;> simp_all
  · intro d
    unfold respond
    split_ifs <;> simp_all
  · intro d
    unfold respond
    split_ifs <;> simp_all
  · unfold respond
    split_ifs <;> simp_all

/-- C9 witness: the amended theorem applied to a 401 with the marker set:
not re-issued through any of the three classes and rejected directly. -/
theorem C9_amended_witness :
    threeClassReissue (respond 3 1000 st0 e401Retried 0).action = false
    ∧ (respond 3 1000 st0 e401Retried 0).action = RespAction.surface := by
  refine ⟨(C9_amended 3 1000 0 st0 e401Retried).1 rfl, ?_⟩
  exact (C9_amended 3 1000 0 st0 e401Retried).2.1 rfl rfl rfl

/-- C6 counterexample: a 429 on an already retried call is re-dispatched,
and the re-dispatched attempt runs the request interceptor again: with a
full fresh request log the retried call is denied by the admission check,
while the claim says retries skip the admission re-check. -/
theorem C6_counterexample :
    (respond 3 1000 st0 e429Retried 0).action = RespAction.retryAfter 5000
    ∧ (redispatchRetry 1000 0 fullQueue false none (fun _ => none)
        FetchOutcome.threw e429Retried).1 = ReqResult.rejectedRateLimit := by decide

/-- C6 amended: a re-issued retry goes through the request interceptor
exactly like an initial issue: for a non-allow-listed endpoint it is denied
precisely when the purged log has reached the ceiling, and when admitted it
appends a fresh record to the log. -/
theorem C6_amended (now : Nat) (nowSec : Int) (q : List RequestRecord) (isR : Bool)
    (stored : Option String) (decode : String → Option TokenPayload) (pf : FetchOutcome)
    (e : ErrInfo) (hcrit : isCritical e.endpoint = false) :
    ((redispatchRetry now nowSec q isR stored decode pf e).1 = ReqResult.rejectedRateLimit
        ↔ maxRequests ≤ (cleanupOldRequests now q).length)
    ∧ (maxRequests ≤ (cleanupOldRequests now q).length →
        (redispatchRetry now nowSec q isR stored decode pf e).2 = cleanupOldRequests now q)
    ∧ ((cleanupOldRequests now q).length < maxRequests →
        (redispatchRetry now nowSec q isR stored decode pf e).2 =
          cleanupOldRequests now q ++ [⟨now, e.endpoint⟩]) := by
  have hlim : shouldRateLimit now q e.endpoint =
      decide (maxRequests ≤ (cleanupOldRequests now q).length) := by
    unfold shouldRateLimit
    simp [hcrit]
  refine ⟨?_, ?_, ?_⟩
  · unfold redispatchRetry requestInterceptor
    rw [hlim]
    by_cases h : maxRequests ≤ (cleanupOldRequests now q).length <;> simp [h]
  · intro h
    unfold redispatchRetry requestInterceptor
    rw [hlim]
    simp [h]
  · intro h
    have hno : ¬ maxRequests ≤ (cleanupOldRequests now q).length := by omega
    unfold redispatchRetry requestInterceptor
    rw [hlim]
    simp [hno]

/-- C6 witness: the amended theorem applied to a retried call on a full log
(denied) and on an empty log (admitted, with its record appended). -/
theorem C6_witness :
    (redispatchRetry 1000 0 fullQueue false none (fun _ => none)
        FetchOutcome.threw e429Retried).1 = ReqResult.rejectedRateLimit
    ∧ (redispatchRetry 1000 0 [] false none (fun _ => none)
        FetchOutcome.threw e429Retried).2 = [⟨1000, "/articles"⟩] := by
  constructor
  · exact ((C6_amended 1000 0 fullQueue false none (fun _ => none)
      FetchOutcome.threw e429Retried (by decide)).1).mpr (by decide)
  · have h := (C6_amended 1000 0 [] false none (fun _ => none)
      FetchOutcome.threw e429Retried (by decide)).2.2 (by decide)
    simpa [cleanupOldRequests, e429Retried] using h

/-- C7 counterexample: the admin pages path is not on the fallback-eligible
list of the 404 branch, yet the feature-module wrapper substitutes fallback
data for its 404 anyway, because shouldUseFallback accepts every 404
independently of the path; this is the withFallback wrapping used by
staticPagesService.getAdminPages around the /admin/pages call. -/
theorem C7_counterexample :
    fallbackEligiblePath "/admin/pages" = false
    ∧ shouldUseFallback errAdminPages404.status false = true
    ∧ withFallback (Except.error errAdminPages404) (fallbackGetStaticPages none) true false =
        Except.ok (fallbackGetStaticPages none) := by
  exact ⟨by decide, by decide, rfl⟩

/-- C7 amended: every 404 is rejected without a retry and classified
fallback-eligible exactly when the path is on the eligible list; the
eligible classification holds for /articles and the canned article list has
length 1 with id 1; but fallback substitution by withFallback is triggered
by any 404 whatever the path, since shouldUseFallback checks only the
status. -/
theorem C7_amended (maxR baseDelay jitter : Nat) (st : ApiState) (e : ErrInfo) (dev : Bool)
    (fb : ArticlesResult)
    (hrl : e.isRateLimit = false) (hs : e.status = some 404) :
    (respond maxR baseDelay st e jitter).action =
        RespAction.rejectNotFound (fallbackEligiblePath e.endpoint)
    ∧ (respond maxR baseDelay st e jitter).reqRetryFlag = e.retryFlag
    ∧ (respond maxR baseDelay st e jitter).state = st
    ∧ fallbackEligiblePath "/articles" = true
    ∧ fallbackGetArticles.articles.map Article.id = ["1"]
    ∧ fallbackGetArticles.articles.length = 1
    ∧ fallbackGetArticles.success = true
    ∧ shouldUseFallback e.status dev = true
    ∧ withFallback (Except.error e) fb true dev = Except.ok fb := by
  have ha : respond maxR baseDelay st e jitter =
      ⟨RespAction.rejectNotFound (fallbackEligiblePath e.endpoint), st, e.retryFlag⟩ := by
    unfold respond
    simp [hrl, hs]
  have hu : shouldUseFallback e.status dev = true := by
    unfold shouldUseFallback
    simp [hs]
  refine ⟨by rw [ha], by rw [ha], by rw [ha], by decide, rfl, rfl, rfl, hu, ?_⟩
  unfold withFallback
  simp [hu]

/-- C7 witness: the amended theorem applied to a 404 on /articles: the
action is the fallback-eligible rejection and withFallback substitutes the
canned articles. -/
theorem C7_witness :
    (respond 3 1000 st0 ⟨false, some 404, none, "/articles", false⟩ 0).action =
      RespAction.rejectNotFound true
    ∧ withFallback (Except.error ⟨false, some 404, none, "/articles", false⟩)
        fallbackGetArticles true false = Except.ok fallbackGetArticles := by
  have h := C7_amended 3 1000 0 st0 ⟨false, some 404, none, "/articles", false⟩ false
    fallbackGetArticles rfl rfl
  refine ⟨?_, h.2.2.2.2.2.2.2.2⟩
  have := h.1
  simpa [show fallbackEligiblePath "/articles" = true from by decide] using this

/-- C1: the proactive pre-call refresh path reads the isRefreshing flag but
never writes it, so two requests whose tokens are near expiry, interleaved
at the fetch suspension point, both pass the guard and two refresh calls
are in flight simultaneously while the flag still reads false. -/
theorem C1_two_refreshes_in_flight :
    (runTwo tokenTaskA tokenTaskB [true, false]).1.refreshesInFlight = 2
    ∧ (runTwo tokenTaskA tokenTaskB [true, false]).1.isRefreshing = false
    ∧ (runTwo tokenTaskA tokenTaskB [true, false]).2.1 = TaskPC.awaitingRefresh
    ∧ (runTwo tokenTaskA tokenTaskB [true, false]).2.2 = TaskPC.awaitingRefresh := by decide
